import Mathlib

/-!
# Verification of the security-scanner core (backend/main.py, mcp/main.py)

Shallow embedding of the scanner's probes and aggregator, with theorems
checking the natural-language specification against the code.

Network effects are modelled as explicit environments: every HTTP request,
TLS handshake, TCP connect and DNS resolution that the Python code performs
is a field of an environment record, so each probe becomes a pure function
of its request arguments and its environment.  Real arithmetic (`float`)
is modelled by `ℚ`; all deduction amounts and thresholds in the sources
are exact decimals, so this is faithful.  Python string primitives
(`lower`, `strip`, `replace`, `split`, substring `in`) are re-implemented
on `List Char` with Python's semantics (ASCII case mapping; leftmost,
non-overlapping replacement).
-/

set_option maxHeartbeats 1600000

namespace SecScan

/-! ## Python string primitives -/

/-- ASCII lower-casing of one character, embedding Python's `str.lower`
(the scanner only handles ASCII header names, URLs and hostnames). -/
def pyLowerChar (c : Char) : Char :=
  if 65 ≤ c.toNat ∧ c.toNat ≤ 90 then Char.ofNat (c.toNat + 32) else c

/-- ASCII upper-casing of one character, embedding Python's `str.upper`. -/
def pyUpperChar (c : Char) : Char :=
  if 97 ≤ c.toNat ∧ c.toNat ≤ 122 then Char.ofNat (c.toNat - 32) else c

/-- Embedding of Python's `str.lower()`. -/
def pyLower (s : String) : String := ⟨s.data.map pyLowerChar⟩

/-- Embedding of Python's `str.upper()`. -/
def pyUpper (s : String) : String := ⟨s.data.map pyUpperChar⟩

/-- Embedding of Python's `str.strip()`: drop whitespace from both ends. -/
def pyStrip (s : String) : String :=
  ⟨((s.data.dropWhile Char.isWhitespace).reverse.dropWhile Char.isWhitespace).reverse⟩

/-- Embedding of Python's `str.startswith(pat)`. -/
def pyStartsWith (s pat : String) : Bool := pat.data.isPrefixOf s.data

/-- One step of Python's leftmost non-overlapping `str.replace`; the fuel
argument makes the recursion structural (fuel `s.length` is enough because
every step consumes at least one character of `s`). -/
def strReplaceAux : Nat → List Char → List Char → List Char → List Char
  | _, [], _, _ => []
  | 0, s, _, _ => s
  | fuel + 1, c :: rest, pat, rep =>
    if pat ≠ [] ∧ pat.isPrefixOf (c :: rest) then
      rep ++ strReplaceAux fuel ((c :: rest).drop pat.length) pat rep
    else
      c :: strReplaceAux fuel rest pat rep

/-- Embedding of Python's `str.replace(pat, rep)` (all occurrences,
leftmost, non-overlapping; scanning resumes after each replacement).
The sources only ever call it with non-empty patterns. -/
def pyReplace (s pat rep : String) : String :=
  ⟨strReplaceAux s.data.length s.data pat.data rep.data⟩

/-- Substring test on character lists (Python's `pat in s`). -/
def containsSub : List Char → List Char → Bool
  | [], pat => pat.isEmpty
  | c :: rest, pat => pat.isPrefixOf (c :: rest) || containsSub rest pat

/-- Embedding of Python's substring membership `pat in s`. -/
def pyContains (s pat : String) : Bool := containsSub s.data pat.data

/-- Splitting step for Python's `str.split(sep)` with non-empty `sep`;
fuelled to keep the recursion structural. -/
def splitAux : Nat → List Char → List Char → List Char → List (List Char)
  | _, [], _, cur => [cur.reverse]
  | 0, s, _, cur => [cur.reverse ++ s]
  | fuel + 1, c :: rest, sep, cur =>
    if sep ≠ [] ∧ sep.isPrefixOf (c :: rest) then
      cur.reverse :: splitAux fuel ((c :: rest).drop sep.length) sep []
    else
      splitAux fuel rest sep (c :: cur)

/-- Embedding of Python's `str.split(sep)` for a non-empty separator. -/
def pySplit (s sep : String) : List String :=
  (splitAux s.data.length s.data sep.data []).map fun l => ⟨l⟩

/-- Embedding of Python's `str.rstrip(sep-char)` for one character. -/
def pyRstripChar (s : String) (c : Char) : String :=
  ⟨(s.data.reverse.dropWhile (fun d => d = c)).reverse⟩

/-! ## Rounding

Python's `round(x, 1)` on the score values reachable in this program:
every reachable pre-rounding score is of the form `k/70` (header probe)
or `k/10` (vulnerability probe), and `10 * score` is never half an odd
integer, so round-half-even and round-half-up agree on every reachable
input and the embedding below is exact. -/

/-- Round to one decimal place. -/
def round1 (q : ℚ) : ℚ := (round (q * 10) : ℤ) / 10

theorem round1_eval (q : ℚ) (z : ℤ) (h1 : (z : ℚ) ≤ q * 10 + 1 / 2)
    (h2 : q * 10 + 1 / 2 < (z : ℚ) + 1) : round1 q = (z : ℚ) / 10 := by
  have hz : round (q * 10) = z := by
    rw [round_eq, Int.floor_eq_iff]
    exact ⟨h1, h2⟩
  rw [round1, hz]

theorem round1_mono {a b : ℚ} (h : a ≤ b) : round1 a ≤ round1 b := by
  have : round (a * 10) ≤ round (b * 10) := by
    rw [round_eq, round_eq]
    exact Int.floor_mono (by linarith)
  unfold round1
  exact (div_le_div_iff_of_pos_right (show (0 : ℚ) < 10 by norm_num)).mpr
    (by exact_mod_cast this)

theorem round1_nonneg {a : ℚ} (h : 0 ≤ a) : 0 ≤ round1 a := by
  have h0 : round1 0 ≤ round1 a := round1_mono h
  have : round1 0 = 0 := by
    unfold round1
    norm_num
  linarith [h0, this]

theorem round1_ten : round1 10 = 10 := by
  unfold round1
  norm_num

/-! ## HTTP responses -/

/-- An HTTP response as the probes see it: the header map (in arrival
order), the body text and the status code. -/
structure HttpResponse where
  headers : List (String × String)
  body : String
  status_code : Nat
deriving DecidableEq, Repr

/-- Case-insensitive header lookup: the first header whose lower-cased name
matches `name` (embeds both the explicit `h.lower() == header_name` loops
and membership/indexing on `requests`' case-insensitive header dict, whose
catalog queries are already lower-case). -/
def lookupHeaderCI (headers : List (String × String)) (name : String) : Option String :=
  (headers.find? fun h => pyLower h.1 == name).map (·.2)

/-! ## Vulnerability probe (`scan_vulnerabilities`, mcp/main.py lines 110-254) -/

/-- One vulnerability finding, mirroring the dict literals appended to the
`vulnerabilities` list: every literal has `type`, `severity` and
`description`; the kind-specific keys (`header`, `detail`, `path`,
`status_code`, `method`) are optional. -/
structure Finding where
  type : String
  severity : String
  description : String
  header : Option String := none
  detail : Option String := none
  path : Option String := none
  status_code : Option Nat := none
  method : Option String := none
deriving DecidableEq, Repr

/-- The network environment of one `scan_vulnerabilities` invocation:
the baseline `GET url` (`Except` carries `str(e)` of a raised
`RequestException`), the supplementary `GET url + path` for each sensitive
path, the directory-listing `GET url.rstrip('/') + '/'`, and the
`OPTIONS url` request; `none` means the request raised. -/
structure VulnEnv where
  baseline : Except String HttpResponse
  pathResponse : String → Option HttpResponse
  dirResponse : Option HttpResponse
  optionsResponse : Option HttpResponse

/-- The `security_headers` dict of the light tier (header → description). -/
def vuln_security_headers : List (String × String) :=
  [("x-frame-options", "Clickjacking protection missing"),
   ("x-content-type-options", "MIME-sniffing protection missing"),
   ("x-xss-protection", "XSS protection header missing"),
   ("strict-transport-security", "HSTS header missing"),
   ("content-security-policy", "CSP header missing")]

/-- The `vulnerable_paths` list of the medium/deep tiers. -/
def vulnerable_paths : List String := ["/admin", "/wp-admin", "/.env", "/config.php"]

/-- The `dangerous_methods` list of the deep tier. -/
def dangerous_methods : List String := ["TRACE", "DELETE", "PUT"]

/-- `if not url.startswith(('http://', 'https://')): url = 'https://' + url`. -/
def withScheme (url : String) : String :=
  if pyStartsWith url "http://" || pyStartsWith url "https://" then url
  else "https://" ++ url

/-- Scanner state threaded through the checks: the `vulnerabilities` list
and the running `score`, exactly the two locals the Python code mutates. -/
abbrev VulnSt : Type := List Finding × ℚ

/-- Missing-security-header check of the light tier
(`if header not in [h.lower() for h in headers.keys()]: ... score -= 0.5`). -/
def missingHeaderStep (headers : List (String × String)) (st : VulnSt)
    (p : String × String) : VulnSt :=
  if (headers.map fun h => pyLower h.1).contains p.1 then st
  else
    (st.1 ++ [{ type := "Missing Security Header", severity := "medium",
                description := p.2, header := some p.1 }],
     st.2 - 0.5)

/-- Server-information-disclosure check of the light tier
(`if 'server' in headers: ... score -= 0.2`); membership and indexing on
`requests`' header dict are case-insensitive. -/
def serverCheck (headers : List (String × String)) (st : VulnSt) : VulnSt :=
  match lookupHeaderCI headers "server" with
  | none => st
  | some server_info =>
    if ["apache", "nginx", "iis"].any (fun tech => pyContains (pyLower server_info) tech) then
      (st.1 ++ [{ type := "Information Disclosure", severity := "low",
                  description := "Server information disclosed: " ++ server_info,
                  detail := some server_info }],
       st.2 - 0.2)
    else st

/-- SQL-error content check of the light tier
(`if 'sql' in content and 'error' in content: ... score -= 1.0`);
`content` is the lower-cased body. -/
def contentCheck (content : String) (st : VulnSt) : VulnSt :=
  if pyContains content "sql" && pyContains content "error" then
    (st.1 ++ [{ type := "Potential SQL Error", severity := "medium",
                description := "Possible SQL error messages in content" }],
     st.2 - 1.0)
  else st

/-- Sensitive-path check of the medium/deep tiers: a raised request
(`none`) is swallowed by the bare `except: pass`; a `200` adds the
Exposed Endpoint finding and `score -= 1.5`. -/
def pathStep (env : VulnEnv) (st : VulnSt) (path : String) : VulnSt :=
  match env.pathResponse path with
  | none => st
  | some tr =>
    if tr.status_code = 200 then
      (st.1 ++ [{ type := "Exposed Endpoint", severity := "high",
                  description := "Potentially sensitive endpoint accessible: " ++ path,
                  path := some path, status_code := some tr.status_code }],
       st.2 - 1.5)
    else st

/-- Directory-listing check of the medium/deep tiers
(`if 'index of' in dir_response.text.lower(): ... score -= 0.8`). -/
def dirCheck (env : VulnEnv) (st : VulnSt) : VulnSt :=
  match env.dirResponse with
  | none => st
  | some dr =>
    if pyContains (pyLower dr.body) "index of" then
      (st.1 ++ [{ type := "Directory Listing", severity := "medium",
                  description := "Directory listing may be enabled" }],
       st.2 - 0.8)
    else st

/-- One dangerous HTTP method (`if method in allowed_methods.upper():
... score -= 0.5`). -/
def methodStep (allowed : String) (st : VulnSt) (m : String) : VulnSt :=
  if pyContains (pyUpper allowed) m then
    (st.1 ++ [{ type := "Dangerous HTTP Method", severity := "medium",
                description := "Dangerous HTTP method enabled: " ++ m,
                method := some m }],
     st.2 - 0.5)
  else st

/-- HTTP-method check of the deep tier: OPTIONS request, then each of the
dangerous methods against the `Allow` header when present. -/
def optionsCheck (env : VulnEnv) (st : VulnSt) : VulnSt :=
  match env.optionsResponse with
  | none => st
  | some orsp =>
    match lookupHeaderCI orsp.headers "allow" with
    | none => st
    | some allowed => dangerous_methods.foldl (methodStep allowed) st

/-- Success payload of `scan_vulnerabilities` (the timestamp field is
omitted: it is wall-clock output with no algorithmic content). -/
structure VulnResult where
  url : String
  scan_depth : String
  vulnerabilities : List Finding
  vulnerability_count : Nat
  security_score : ℚ
  risk_level : String
deriving DecidableEq, Repr

/-- Outcome of the probe: the success payload, or the degraded payload
`{error, vulnerabilities, score}` returned when the baseline GET raises. -/
inductive VulnOutcome where
  | success (r : VulnResult)
  | connectError (error : String) (vulnerabilities : List Finding) (score : ℚ)
deriving DecidableEq, Repr

/-- The whole check sequence of `scan_vulnerabilities` after a successful
baseline GET: the light-tier checks, then the medium/deep additions
guarded by `scan_depth in ['medium', 'deep']`, then the deep-only OPTIONS
check guarded by `scan_depth == 'deep'`. -/
def vulnScanSt (scan_depth : String) (env : VulnEnv) (response : HttpResponse) : VulnSt :=
  let headers := response.headers
  let content := pyLower response.body
  let st0 : VulnSt := ([], 10.0)
  let st1 := vuln_security_headers.foldl (missingHeaderStep headers) st0
  let st2 := serverCheck headers st1
  let st3 := contentCheck content st2
  let st4 :=
    if scan_depth = "medium" ∨ scan_depth = "deep" then
      dirCheck env (vulnerable_paths.foldl (pathStep env) st3)
    else st3
  if scan_depth = "deep" then optionsCheck env st4 else st4

/-- Embedding of `scan_vulnerabilities` (mcp/main.py lines 110-254). -/
def scan_vulnerabilities (url0 scan_depth : String) (env : VulnEnv) : VulnOutcome :=
  let url := withScheme url0
  match env.baseline with
  | .error e => .connectError ("Could not connect to " ++ url ++ ": " ++ e) [] 0.0
  | .ok response =>
    let st5 := vulnScanSt scan_depth env response
    let score := max 0.0 st5.2
    let risk_level :=
      if score ≥ 8.0 then "low"
      else if score ≥ 6.0 then "medium"
      else if score ≥ 4.0 then "high"
      else "critical"
    .success { url := url, scan_depth := scan_depth, vulnerabilities := st5.1,
               vulnerability_count := st5.1.length, security_score := round1 score,
               risk_level := risk_level }

/-- The findings list of an outcome (success payload or error payload). -/
def vulnsOf : VulnOutcome → List Finding
  | .success r => r.vulnerabilities
  | .connectError _ v _ => v

/-- The published score of an outcome. -/
def vscoreOf : VulnOutcome → ℚ
  | .success r => r.security_score
  | .connectError _ _ s => s

/-- The echoed scan depth of a success payload (empty on error). -/
def vdepthOf : VulnOutcome → String
  | .success r => r.scan_depth
  | .connectError _ _ _ => ""

/-- Whether the outcome is the success shape. -/
def isVulnSuccess : VulnOutcome → Bool
  | .success _ => true
  | .connectError _ _ _ => false

/-- The deduction the code applies alongside a finding of the given kind:
each branch of `scan_vulnerabilities` subtracts exactly this amount when
it appends a finding of that `type`. -/
def findingDeduction (f : Finding) : ℚ :=
  match f.type with
  | "Missing Security Header" => 0.5
  | "Information Disclosure" => 0.2
  | "Potential SQL Error" => 1.0
  | "Exposed Endpoint" => 1.5
  | "Directory Listing" => 0.8
  | "Dangerous HTTP Method" => 0.5
  | _ => 0

/-- Total deduction of a findings list. -/
def sumD (fs : List Finding) : ℚ := (fs.map findingDeduction).sum

/-! ## HTTP header probe (`analyze_security_headers`, mcp/main.py lines 256-378) -/

/-- Metadata of one catalog entry (`name`, `importance`, `description`). -/
structure HeaderMeta where
  name : String
  importance : String
  description : String
deriving DecidableEq, Repr

/-- The fixed `security_headers_check` catalog (7 entries). -/
def security_headers_check : List (String × HeaderMeta) :=
  [("strict-transport-security",
    ⟨"HTTP Strict Transport Security (HSTS)", "high", "Prevents protocol downgrade attacks"⟩),
   ("content-security-policy",
    ⟨"Content Security Policy (CSP)", "high", "Prevents XSS and data injection attacks"⟩),
   ("x-frame-options",
    ⟨"X-Frame-Options", "medium", "Prevents clickjacking attacks"⟩),
   ("x-content-type-options",
    ⟨"X-Content-Type-Options", "medium", "Prevents MIME-sniffing attacks"⟩),
   ("x-xss-protection",
    ⟨"X-XSS-Protection", "low", "Legacy XSS protection (deprecated but still useful)"⟩),
   ("referrer-policy",
    ⟨"Referrer Policy", "medium", "Controls referrer information"⟩),
   ("permissions-policy",
    ⟨"Permissions Policy", "medium", "Controls browser features and APIs"⟩)]

/-- One entry of the `present_headers` map (catalog key, response value,
catalog metadata). -/
structure PresentHeader where
  header : String
  value : String
  name : String
  importance : String
  description : String
deriving DecidableEq, Repr

/-- One entry of the `missing_headers` list. -/
structure MissingHeader where
  header : String
  name : String
  importance : String
  description : String
deriving DecidableEq, Repr

/-- Success payload of `analyze_security_headers` (timestamp omitted). -/
structure HeadersResult where
  url : String
  security_score : ℚ
  grade : String
  present_headers : List PresentHeader
  missing_headers : List MissingHeader
  total_headers_checked : Nat
  headers_present : Nat
  recommendations : List String
deriving DecidableEq, Repr

/-- Outcome of the header probe: success payload or `{error}` payload. -/
inductive HeadersOutcome where
  | success (r : HeadersResult)
  | failure (error : String)
deriving DecidableEq, Repr

/-- Python truthiness of the `header_value` local in the classification
loop: `None` (no header found) and the empty string are falsy, any other
string is truthy. -/
def truthyValue : Option String → Bool
  | none => false
  | some v => !(v == "")

/-- The classification loop over the catalog, building the
`present_headers` map and the `missing_headers` list.  The branch is
Python's `if header_value:` (mcp/main.py line 318) — truthiness, not mere
lookup success — so a catalog header found with an *empty* value is
classified missing; in the truthy branch `header_value.getD ""` extracts
the found (necessarily non-empty) value. -/
def classifyStep (headers : List (String × String))
    (acc : List PresentHeader × List MissingHeader) (p : String × HeaderMeta) :
    List PresentHeader × List MissingHeader :=
  let header_value := lookupHeaderCI headers p.1
  if truthyValue header_value then
    (acc.1 ++ [⟨p.1, header_value.getD "", p.2.name, p.2.importance, p.2.description⟩],
     acc.2)
  else
    (acc.1, acc.2 ++ [⟨p.1, p.2.name, p.2.importance, p.2.description⟩])

/-- Embedding of `analyze_security_headers` (mcp/main.py lines 256-378);
the environment is the result of the single `GET url` (`Except` carries
`str(e)` of a raised `RequestException`). -/
def analyze_security_headers (url0 : String) (resp : Except String HttpResponse) :
    HeadersOutcome :=
  match resp with
  | .error e => .failure ("Could not analyze headers for " ++ url0 ++ ": " ++ e)
  | .ok response =>
    let url := withScheme url0
    let pm := security_headers_check.foldl (classifyStep response.headers) ([], [])
    let present_headers := pm.1
    let missing_headers := pm.2
    let total_headers := security_headers_check.length
    let present_count := present_headers.length
    let score0 : ℚ := ((present_count : ℚ) / (total_headers : ℚ)) * 10
    let high_importance :=
      (security_headers_check.filter fun p => p.2.importance == "high").map (·.1)
    let high_present :=
      (present_headers.map (·.header)).filter fun h => high_importance.contains h
    let score1 :=
      if high_present.length = high_importance.length then score0 + 1
      else if high_present.length = 0 then score0 - 2
      else score0
    let score := max 0 (min 10 score1)
    let grade :=
      if score ≥ 9 then "A"
      else if score ≥ 7 then "B"
      else if score ≥ 5 then "C"
      else if score ≥ 3 then "D"
      else "F"
    .success { url := url, security_score := round1 score, grade := grade,
               present_headers := present_headers, missing_headers := missing_headers,
               total_headers_checked := total_headers, headers_present := present_count,
               recommendations :=
                 (missing_headers.filter fun h => h.importance == "high").map
                   fun h => "Implement " ++ h.name }

/-- The published score of a header-probe outcome (0 on the error payload,
which carries no score at all). -/
def hscoreOf : HeadersOutcome → ℚ
  | .success r => r.security_score
  | .failure _ => 0

/-- The `headers_present` count of a success payload. -/
def hpresentOf : HeadersOutcome → Nat
  | .success r => r.headers_present
  | .failure _ => 0

/-! ## Target normalization (`clean_url`, mcp/main.py lines 34-40) -/

/-- Embedding of `clean_url`: strip, lower-case, delete every `http://`
and `https://` occurrence, then truncate at the first `/` if one
remains. -/
def clean_url (url : String) : String :=
  let u := pyReplace (pyReplace (pyLower (pyStrip url)) "http://" "") "https://" ""
  if pyContains u "/" then ⟨u.data.takeWhile fun c => c ≠ '/'⟩ else u

/-! ## TLS probe (`check_ssl_certificate`, mcp/main.py lines 49-108) -/

/-- The peer-certificate dict as Python's `ssl.SSLSocket.getpeercert()`
returns it: `subject` and `issuer` flattened to attribute/value pairs (the
code takes `x[0]` of each RDN), the two validity timestamps (modelled at
day granularity, as parsed instants), and the Subject Alternative Names
under the `subjectAltName` key (type/value pairs).  The dict has no
`extensions` key — `getpeercert()` never produces one. -/
structure PeerCert where
  subject : List (String × String)
  issuer : List (String × String)
  notBeforeDays : Int
  notAfterDays : Int
  subjectAltName : List (String × String)
deriving DecidableEq, Repr

/-- Embedding of `cert.get('extensions', [])`: the `getpeercert()` dict
carries no `extensions` key, so Python's `.get` always returns the
default `[]` here, whatever the certificate contains. -/
def certExtensions (_cert : PeerCert) : List String := []

/-- Environment of one TLS handshake: the current time (days) and the
handshake outcome (certificate, or the error string of the raised
exception). -/
structure TLSEnv where
  nowDays : Int
  handshake : Except String PeerCert

/-- Success payload of the TLS probe (timestamps kept at day granularity). -/
structure SSLResult where
  valid : Bool
  domain : String
  subject : List (String × String)
  issuer : List (String × String)
  not_before : Int
  not_after : Int
  days_until_expiry : Int
  subject_alt_names : List String
  issues : List String
  chain_valid : Bool
deriving DecidableEq, Repr

/-- Outcome of the TLS probe: success payload or
`{valid: false, error, domain}` payload. -/
inductive SSLOutcome where
  | success (r : SSLResult)
  | failure (error : String) (domain : String)
deriving DecidableEq, Repr

/-- Embedding of `check_ssl_certificate` (mcp/main.py lines 49-108);
the SAN loop iterates `cert.get('extensions', [])` and, per matching
entry, rebuilds `san_list` from `str(ext)` split on `', '` and `':'`. -/
def check_ssl_certificate (url : String) (check_chain : Bool) (env : TLSEnv) :
    SSLOutcome :=
  let domain := clean_url url
  match env.handshake with
  | .error e => .failure e url
  | .ok cert =>
    let subject := cert.subject
    let issuer := cert.issuer
    let days_until_expiry := cert.notAfterDays - env.nowDays
    let issues :=
      (if days_until_expiry < 30 then
        ["Certificate expires in " ++ toString days_until_expiry ++ " days"]
      else []) ++
      (if (subject.map Prod.fst).contains "CN" then []
      else ["No Common Name in certificate"])
    let san_list := (certExtensions cert).foldl
      (fun acc ext =>
        if pyContains ext "subjectAltName" then
          ((pySplit ext ", ").filter fun name => pyContains name ":").map
            fun name => (pySplit name ":").getD 1 ""
        else acc)
      []
    .success { valid := true, domain := domain, subject := subject, issuer := issuer,
               not_before := cert.notBeforeDays, not_after := cert.notAfterDays,
               days_until_expiry := days_until_expiry,
               subject_alt_names := san_list, issues := issues,
               chain_valid := check_chain }

/-- The `subject_alt_names` field of a TLS success payload. -/
def sanOf : SSLOutcome → List String
  | .success r => r.subject_alt_names
  | .failure _ _ => []

/-! ## Port probe (`scan_ports`, mcp/main.py lines 380-416) -/

/-- The default 13-port set. -/
def default_ports : List Nat := [21, 22, 23, 25, 53, 80, 110, 143, 443, 993, 995, 8080, 8443]

/-- Success payload of the port probe (timestamp omitted). -/
structure PortsResult where
  domain : String
  open_ports : List Nat
  closed_ports : List Nat
  total_scanned : Nat
  security_concerns : List String
deriving DecidableEq, Repr

/-- One iteration of the port loop: a successful connect appends to
`open_ports`, a timeout/connect error appends to `closed_ports`. -/
def portStep (isOpen : Nat → Bool) (acc : List Nat × List Nat) (port : Nat) :
    List Nat × List Nat :=
  if isOpen port then (acc.1 ++ [port], acc.2) else (acc.1, acc.2 ++ [port])

/-- Embedding of `scan_ports`: `isOpen` is the per-port TCP connect
outcome (`True` = connection established, any timeout/connect error =
closed).  `request.ports or [...]` falls back to the default set when the
field is absent *or* an empty list (Python truthiness). -/
def scan_ports (url : String) (ports? : Option (List Nat)) (isOpen : Nat → Bool) :
    PortsResult :=
  let domain := clean_url url
  let ports_to_scan :=
    match ports? with
    | none => default_ports
    | some l => if l.isEmpty then default_ports else l
  let oc := ports_to_scan.foldl (portStep isOpen) ([], [])
  let open_ports := oc.1
  let closed_ports := oc.2
  let security_concerns :=
    (if open_ports.contains 21 then
      ["FTP port 21 is open - consider using SFTP instead"] else []) ++
    (if open_ports.contains 23 then
      ["Telnet port 23 is open - unencrypted protocol"] else []) ++
    (if open_ports.contains 80 && !(open_ports.contains 443) then
      ["Only HTTP (port 80) available - no HTTPS"] else [])
  { domain := domain, open_ports := open_ports, closed_ports := closed_ports,
    total_scanned := ports_to_scan.length, security_concerns := security_concerns }

/-! ## DNS probe (`analyze_dns`, mcp/main.py lines 418-472) -/

/-- Outcome of resolving one record type: a list of answer strings, the
`NoAnswer` exception, or any other resolution exception. -/
inductive DNSOutcome where
  | answers (records : List String)
  | noAnswer
  | failure
deriving DecidableEq, Repr

/-- The fixed record-type list. -/
def record_types : List String := ["A", "AAAA", "MX", "TXT", "NS", "CNAME"]

/-- Success payload of the DNS probe (timestamp omitted). -/
structure DNSResult where
  domain : String
  dns_records : List (String × List String)
  security_issues : List String
  spf_configured : Bool
  dmarc_configured : Bool
deriving DecidableEq, Repr

/-- One iteration of the record-type loop: append the resolved list, `[]`
on `NoAnswer`, or the `"Error resolving"` sentinel on any other
exception. -/
def resolveStep (resolve : String → DNSOutcome) (acc : List (String × List String))
    (rt : String) : List (String × List String) :=
  match resolve rt with
  | .answers l => acc ++ [(rt, l)]
  | .noAnswer => acc ++ [(rt, [])]
  | .failure => acc ++ [(rt, ["Error resolving"])]

/-- Embedding of `analyze_dns` (mcp/main.py lines 418-472); `resolve`
gives the resolver outcome per record type. -/
def analyze_dns (domain0 : String) (resolve : String → DNSOutcome) : DNSResult :=
  let domain := pyReplace (pyReplace (pyLower (pyStrip domain0)) "http://" "") "https://" ""
  let domain := if pyContains domain "/" then ⟨domain.data.takeWhile fun c => c ≠ '/'⟩
                else domain
  let dns_info := record_types.foldl (resolveStep resolve) []
  let txt := ((dns_info.find? fun p => p.1 == "TXT").map (·.2)).getD []
  let spf_found := txt.any fun r => pyStartsWith r "\"v=spf1"
  let dmarc_found := txt.any fun r => pyStartsWith r "\"v=DMARC1"
  let security_issues :=
    (if spf_found then []
     else ["No SPF record found - email spoofing protection missing"]) ++
    (if dmarc_found then []
     else ["No DMARC record found - email authentication policy missing"]) ++
    (if (((dns_info.find? fun p => p.1 == "A").map (·.2)).getD []).length > 5 then
      ["Many A records found - potential load balancing or CDN setup"] else [])
  { domain := domain, dns_records := dns_info, security_issues := security_issues,
    spf_configured := spf_found, dmarc_configured := dmarc_found }

/-! ## Report aggregator (`scan_website`, backend/main.py lines 110-169) -/

/-- The backend's own URL normalization (backend/main.py lines 115-116):
strip, lower-case, delete scheme substrings — note it does *not* truncate
at `/`. -/
def backendClean (url : String) : String :=
  pyReplace (pyReplace (pyLower (pyStrip url)) "http://" "") "https://" ""

/-- The backend's environment: each tool is an HTTP POST to the MCP
server, returning a JSON payload (success body or `{error: ...}` body),
modelled as an opaque string of the given arguments; `llm` models the
summarization call. -/
structure BackendEnv where
  check_ssl : String → String
  scan_vulns : String → String → String
  headers_tool : String → String
  llm : String → String

/-- The aggregated scan response: the `results` dict (probe payloads keyed
by probe kind, in insertion order) and the LLM summary. -/
structure ScanResponse where
  results : List (String × String)
  summary : String
deriving DecidableEq, Repr

/-- Embedding of `scan_website` (backend/main.py lines 110-169): normalize
the URL, invoke the three wired tools, aggregate their payloads under the
keys `ssl`, `vulnerabilities` and `security_headers`, then summarize.
`scan_vulnerabilities` is invoked with its default depth `light`. -/
def scan_website (rawUrl : String) (env : BackendEnv) : ScanResponse :=
  let url := backendClean rawUrl
  let ssl_result := env.check_ssl url
  let vuln_result := env.scan_vulns url "light"
  let headers_result := env.headers_tool url
  let aggregated_results :=
    [("ssl", ssl_result), ("vulnerabilities", vuln_result),
     ("security_headers", headers_result)]
  { results := aggregated_results,
    summary := env.llm ("Analyze these security scan results for the website " ++ url
      ++ " " ++ ssl_result ++ " " ++ vuln_result ++ " " ++ headers_result) }

/-! ## Helper lemmas -/

theorem foldl_preserves {α β : Type _} (step : β → α → β) (Inv : β → Prop)
    (h : ∀ st x, Inv st → Inv (step st x)) (l : List α) :
    ∀ (st : β), Inv st → Inv (l.foldl step st) := by
  induction l with
  | nil => exact fun _ hst => hst
  | cons x xs ih => exact fun st hst => ih (step st x) (h st x hst)

theorem foldl_fst_sublist {α : Type _} (step : VulnSt → α → VulnSt)
    (h : ∀ (st : VulnSt) (x : α), st.1.Sublist (step st x).1) (l : List α) :
    ∀ (st : VulnSt), st.1.Sublist (l.foldl step st).1 := by
  induction l with
  | nil => exact fun _ => List.Sublist.refl _
  | cons x xs ih => exact fun st => (h st x).trans (ih (step st x))

/-- The score/findings invariant the Python locals maintain: the running
score always equals 10 minus the deductions of the findings appended so
far. -/
def InvV (st : VulnSt) : Prop := st.2 = 10 - sumD st.1

theorem sumD_append (l : List Finding) (f : Finding) :
    sumD (l ++ [f]) = sumD l + findingDeduction f := by
  simp [sumD]

theorem missingHeaderStep_inv (headers : List (String × String)) :
    ∀ (st : VulnSt) (p : String × String), InvV st → InvV (missingHeaderStep headers st p) := by
  intro st p h
  unfold missingHeaderStep
  split
  · exact h
  · show st.2 - 0.5 = 10 - sumD (st.1 ++
      [Finding.mk "Missing Security Header" "medium" p.2 (some p.1) none none none none])
    have hd : findingDeduction
      (Finding.mk "Missing Security Header" "medium" p.2 (some p.1) none none none none)
      = 0.5 := rfl
    rw [sumD_append, h, hd]; ring

theorem serverCheck_inv (headers : List (String × String)) :
    ∀ (st : VulnSt), InvV st → InvV (serverCheck headers st) := by
  intro st h
  unfold serverCheck
  split
  · exact h
  next _ server_info _ =>
    split
    · show st.2 - 0.2 = 10 - sumD (st.1 ++
        [Finding.mk "Information Disclosure" "low"
          ("Server information disclosed: " ++ server_info) none (some server_info)
          none none none])
      have hd : findingDeduction
        (Finding.mk "Information Disclosure" "low"
          ("Server information disclosed: " ++ server_info) none (some server_info)
          none none none) = 0.2 := rfl
      rw [sumD_append, h, hd]; ring
    · exact h

theorem contentCheck_inv (content : String) :
    ∀ (st : VulnSt), InvV st → InvV (contentCheck content st) := by
  intro st h
  unfold contentCheck
  split
  · show st.2 - 1.0 = 10 - sumD (st.1 ++
      [Finding.mk "Potential SQL Error" "medium" "Possible SQL error messages in content"
        none none none none none])
    have hd : findingDeduction
      (Finding.mk "Potential SQL Error" "medium" "Possible SQL error messages in content"
        none none none none none) = 1.0 := rfl
    rw [sumD_append, h, hd]; ring
  · exact h

theorem pathStep_inv (env : VulnEnv) :
    ∀ (st : VulnSt) (path : String), InvV st → InvV (pathStep env st path) := by
  intro st path h
  unfold pathStep
  split
  · exact h
  next _ tr _ =>
    split
    · show st.2 - 1.5 = 10 - sumD (st.1 ++
        [Finding.mk "Exposed Endpoint" "high"
          ("Potentially sensitive endpoint accessible: " ++ path) none none
          (some path) (some tr.status_code) none])
      have hd : findingDeduction
        (Finding.mk "Exposed Endpoint" "high"
          ("Potentially sensitive endpoint accessible: " ++ path) none none
          (some path) (some tr.status_code) none) = 1.5 := rfl
      rw [sumD_append, h, hd]; ring
    · exact h

theorem dirCheck_inv (env : VulnEnv) :
    ∀ (st : VulnSt), InvV st → InvV (dirCheck env st) := by
  intro st h
  unfold dirCheck
  split
  · exact h
  next _ dr _ =>
    split
    · show st.2 - 0.8 = 10 - sumD (st.1 ++
        [Finding.mk "Directory Listing" "medium" "Directory listing may be enabled"
          none none none none none])
      have hd : findingDeduction
        (Finding.mk "Directory Listing" "medium" "Directory listing may be enabled"
          none none none none none) = 0.8 := rfl
      rw [sumD_append, h, hd]; ring
    · exact h

theorem methodStep_inv (allowed : String) :
    ∀ (st : VulnSt) (m : String), InvV st → InvV (methodStep allowed st m) := by
  intro st m h
  unfold methodStep
  split
  · show st.2 - 0.5 = 10 - sumD (st.1 ++
      [Finding.mk "Dangerous HTTP Method" "medium"
        ("Dangerous HTTP method enabled: " ++ m) none none none none (some m)])
    have hd : findingDeduction
      (Finding.mk "Dangerous HTTP Method" "medium"
        ("Dangerous HTTP method enabled: " ++ m) none none none none (some m)) = 0.5 := rfl
    rw [sumD_append, h, hd]; ring
  · exact h

theorem optionsCheck_inv (env : VulnEnv) :
    ∀ (st : VulnSt), InvV st → InvV (optionsCheck env st) := by
  intro st h
  unfold optionsCheck
  split
  · exact h
  · split
    · exact h
    next _ allowed _ =>
      exact foldl_preserves _ _ (methodStep_inv allowed) _ _ h

theorem missingHeaderStep_sub (headers : List (String × String)) :
    ∀ (st : VulnSt) (p : String × String), st.1.Sublist (missingHeaderStep headers st p).1 := by
  intro st p
  unfold missingHeaderStep
  split
  · exact List.Sublist.refl _
  · exact List.sublist_append_left _ _

theorem pathStep_sub (env : VulnEnv) :
    ∀ (st : VulnSt) (path : String), st.1.Sublist (pathStep env st path).1 := by
  intro st path
  unfold pathStep
  split
  · exact List.Sublist.refl _
  · split
    · exact List.sublist_append_left _ _
    · exact List.Sublist.refl _

theorem dirCheck_sub (env : VulnEnv) :
    ∀ (st : VulnSt), st.1.Sublist (dirCheck env st).1 := by
  intro st
  unfold dirCheck
  split
  · exact List.Sublist.refl _
  · split
    · exact List.sublist_append_left _ _
    · exact List.Sublist.refl _

theorem methodStep_sub (allowed : String) :
    ∀ (st : VulnSt) (m : String), st.1.Sublist (methodStep allowed st m).1 := by
  intro st m
  unfold methodStep
  split
  · exact List.sublist_append_left _ _
  · exact List.Sublist.refl _

theorem optionsCheck_sub (env : VulnEnv) :
    ∀ (st : VulnSt), st.1.Sublist (optionsCheck env st).1 := by
  intro st
  unfold optionsCheck
  split
  · exact List.Sublist.refl _
  · split
    · exact List.Sublist.refl _
    next _ allowed _ =>
      exact foldl_fst_sublist _ (methodStep_sub allowed) _ _

/-- The light-tier state (named for reuse in the lemmas below). -/
def lightChecks (r : HttpResponse) : VulnSt :=
  contentCheck (pyLower r.body) (serverCheck r.headers
    (vuln_security_headers.foldl (missingHeaderStep r.headers) ([], 10.0)))

theorem vulnScanSt_light_eq (env : VulnEnv) (r : HttpResponse) :
    vulnScanSt "light" env r = lightChecks r := by
  simp [vulnScanSt, lightChecks]

theorem vulnScanSt_medium_eq (env : VulnEnv) (r : HttpResponse) :
    vulnScanSt "medium" env r =
      dirCheck env (vulnerable_paths.foldl (pathStep env) (lightChecks r)) := by
  simp [vulnScanSt, lightChecks]

theorem vulnScanSt_deep_eq (env : VulnEnv) (r : HttpResponse) :
    vulnScanSt "deep" env r = optionsCheck env (vulnScanSt "medium" env r) := by
  simp [vulnScanSt]

theorem lightChecks_inv (r : HttpResponse) : InvV (lightChecks r) := by
  have h0 : InvV (([], 10.0) : VulnSt) := by
    unfold InvV sumD
    norm_num
  exact contentCheck_inv _ _ (serverCheck_inv _ _
    (foldl_preserves _ _ (missingHeaderStep_inv r.headers) _ _ h0))

theorem vulnScanSt_inv (d : String) (env : VulnEnv) (r : HttpResponse) :
    InvV (vulnScanSt d env r) := by
  have hlight := lightChecks_inv r
  rw [show lightChecks r = contentCheck (pyLower r.body) (serverCheck r.headers
    (vuln_security_headers.foldl (missingHeaderStep r.headers) ([], 10.0))) from rfl] at hlight
  simp only [vulnScanSt]
  split
  · split
    · exact optionsCheck_inv _ _ (dirCheck_inv _ _
        (foldl_preserves _ _ (pathStep_inv env) _ _ hlight))
    · exact optionsCheck_inv _ _ hlight
  · split
    · exact dirCheck_inv _ _ (foldl_preserves _ _ (pathStep_inv env) _ _ hlight)
    · exact hlight

theorem vulnScanSt_light_medium (env : VulnEnv) (r : HttpResponse) :
    (vulnScanSt "light" env r).1.Sublist (vulnScanSt "medium" env r).1 := by
  rw [vulnScanSt_light_eq, vulnScanSt_medium_eq]
  exact (foldl_fst_sublist _ (pathStep_sub env) _ _).trans (dirCheck_sub env _)

theorem vulnScanSt_medium_deep (env : VulnEnv) (r : HttpResponse) :
    (vulnScanSt "medium" env r).1.Sublist (vulnScanSt "deep" env r).1 := by
  rw [vulnScanSt_deep_eq]
  exact optionsCheck_sub env _

theorem vulnScanSt_shallow (d : String) (env : VulnEnv) (r : HttpResponse)
    (hm : d ≠ "medium") (hd : d ≠ "deep") :
    vulnScanSt d env r = vulnScanSt "light" env r := by
  simp [vulnScanSt, hm, hd]

theorem findingDeduction_nonneg (f : Finding) : 0 ≤ findingDeduction f := by
  unfold findingDeduction
  split <;> norm_num

theorem sumD_nonneg (fs : List Finding) : 0 ≤ sumD fs := by
  unfold sumD
  apply List.sum_nonneg
  intro a ha
  rcases List.mem_map.mp ha with ⟨f, _, rfl⟩
  exact findingDeduction_nonneg f

theorem sumD_sublist {fs₁ fs₂ : List Finding} (h : fs₁.Sublist fs₂) :
    sumD fs₁ ≤ sumD fs₂ := by
  apply List.Sublist.sum_le_sum (h.map findingDeduction)
  intro a ha
  rcases List.mem_map.mp ha with ⟨f, _, rfl⟩
  exact findingDeduction_nonneg f

theorem vulnsOf_ok (u d : String) (r : HttpResponse) (pr : String → Option HttpResponse)
    (dr orr : Option HttpResponse) :
    vulnsOf (scan_vulnerabilities u d ⟨.ok r, pr, dr, orr⟩) =
      (vulnScanSt d ⟨.ok r, pr, dr, orr⟩ r).1 := rfl

theorem vscoreOf_ok (u d : String) (r : HttpResponse) (pr : String → Option HttpResponse)
    (dr orr : Option HttpResponse) :
    vscoreOf (scan_vulnerabilities u d ⟨.ok r, pr, dr, orr⟩) =
      round1 (max 0.0 (vulnScanSt d ⟨.ok r, pr, dr, orr⟩ r).2) := rfl

/-- The published-score characterization shared by the C2 conjuncts. -/
theorem vscore_formula (u d : String) (r : HttpResponse) (pr : String → Option HttpResponse)
    (dr orr : Option HttpResponse) :
    vscoreOf (scan_vulnerabilities u d ⟨.ok r, pr, dr, orr⟩) =
      round1 (max 0 (10 - sumD (vulnsOf (scan_vulnerabilities u d ⟨.ok r, pr, dr, orr⟩)))) := by
  rw [vscoreOf_ok, vulnsOf_ok]
  have hi := vulnScanSt_inv d ⟨.ok r, pr, dr, orr⟩ r
  unfold InvV at hi
  rw [hi]
  norm_num

/-! ## Claim theorems: vulnerability probe -/

/-- C2: the Vulnerability Probe's published security score starts at 10.0,
is changed only by subtracting the fixed per-finding deductions (so it
always equals `round1 (max 0 (10 - Σ deductions))`), never falls below 0,
never exceeds 10, equals 10 when no findings are produced, and is
monotonically non-increasing as more findings are produced (one run's
findings extending another's can only lower the published score). -/
theorem vuln_score_algebra
    (u₁ d₁ : String) (r₁ : HttpResponse) (pr₁ : String → Option HttpResponse)
    (dr₁ or₁ : Option HttpResponse)
    (u₂ d₂ : String) (r₂ : HttpResponse) (pr₂ : String → Option HttpResponse)
    (dr₂ or₂ : Option HttpResponse) :
    vscoreOf (scan_vulnerabilities u₁ d₁ ⟨.ok r₁, pr₁, dr₁, or₁⟩) =
      round1 (max 0 (10 - sumD (vulnsOf (scan_vulnerabilities u₁ d₁ ⟨.ok r₁, pr₁, dr₁, or₁⟩)))) ∧
    0 ≤ vscoreOf (scan_vulnerabilities u₁ d₁ ⟨.ok r₁, pr₁, dr₁, or₁⟩) ∧
    vscoreOf (scan_vulnerabilities u₁ d₁ ⟨.ok r₁, pr₁, dr₁, or₁⟩) ≤ 10 ∧
    (vulnsOf (scan_vulnerabilities u₁ d₁ ⟨.ok r₁, pr₁, dr₁, or₁⟩) = [] →
      vscoreOf (scan_vulnerabilities u₁ d₁ ⟨.ok r₁, pr₁, dr₁, or₁⟩) = 10) ∧
    ((vulnsOf (scan_vulnerabilities u₁ d₁ ⟨.ok r₁, pr₁, dr₁, or₁⟩)).Sublist
        (vulnsOf (scan_vulnerabilities u₂ d₂ ⟨.ok r₂, pr₂, dr₂, or₂⟩)) →
      vscoreOf (scan_vulnerabilities u₂ d₂ ⟨.ok r₂, pr₂, dr₂, or₂⟩) ≤
        vscoreOf (scan_vulnerabilities u₁ d₁ ⟨.ok r₁, pr₁, dr₁, or₁⟩)) := by
  have hf₁ := vscore_formula u₁ d₁ r₁ pr₁ dr₁ or₁
  have hf₂ := vscore_formula u₂ d₂ r₂ pr₂ dr₂ or₂
  have hs₁ := sumD_nonneg (vulnsOf (scan_vulnerabilities u₁ d₁ ⟨.ok r₁, pr₁, dr₁, or₁⟩))
  refine ⟨hf₁, ?_, ?_, ?_, ?_⟩
  · rw [hf₁]
    exact round1_nonneg (le_max_left 0 _)
  · rw [hf₁]
    have hle : max 0 (10 - sumD (vulnsOf (scan_vulnerabilities u₁ d₁ ⟨.ok r₁, pr₁, dr₁, or₁⟩)))
        ≤ 10 := by
      apply max_le
      · norm_num
      · linarith
    have := round1_mono hle
    rwa [round1_ten] at this
  · intro hnil
    rw [hf₁, hnil]
    have hz : sumD ([] : List Finding) = 0 := rfl
    rw [hz, show max (0 : ℚ) (10 - 0) = 10 from by norm_num [max_def], round1_ten]
  · intro hsub
    rw [hf₁, hf₂]
    apply round1_mono
    apply max_le_max le_rfl
    have := sumD_sublist hsub
    linarith

/-- C2 witness response with all five light-tier headers present. -/
def c2goodResp : HttpResponse :=
  ⟨[("Strict-Transport-Security", "max-age=31536000"),
    ("Content-Security-Policy", "default-src https:"),
    ("X-Frame-Options", "DENY"),
    ("X-Content-Type-Options", "nosniff"),
    ("X-XSS-Protection", "1; mode=block")], "", 200⟩

/-- C2 witness response with every light-tier signal missing/firing. -/
def c2badResp : HttpResponse := ⟨[], "sql error near line 1", 200⟩

/-- Witness for C2 at concrete runs: a clean response scores exactly 10,
and a run whose findings extend another run's findings scores no higher. -/
theorem vuln_score_algebra_witness :
    vscoreOf (scan_vulnerabilities "example.com" "light"
      ⟨.ok c2goodResp, fun _ => none, none, none⟩) = 10 ∧
    vscoreOf (scan_vulnerabilities "example.com" "deep"
        ⟨.ok c2badResp, fun _ => none, none, none⟩) ≤
      vscoreOf (scan_vulnerabilities "example.com" "light"
        ⟨.ok c2goodResp, fun _ => none, none, none⟩) := by
  have h := vuln_score_algebra "example.com" "light" c2goodResp (fun _ => none) none none
    "example.com" "deep" c2badResp (fun _ => none) none none
  have hnil : vulnsOf (scan_vulnerabilities "example.com" "light"
      ⟨.ok c2goodResp, fun _ => none, none, none⟩) = [] := by decide
  refine ⟨h.2.2.2.1 hnil, h.2.2.2.2 ?_⟩
  rw [hnil]
  exact List.nil_sublist _

/-- C4: scan-depth superset property — with identical responses, every
finding produced at depth `light` is also produced at `medium` and `deep`,
and every finding produced at `medium` is also produced at `deep`. -/
theorem vuln_depth_superset (u : String) (r : HttpResponse)
    (pr : String → Option HttpResponse) (dr orr : Option HttpResponse) :
    (∀ f : Finding, f ∈ vulnsOf (scan_vulnerabilities u "light" ⟨.ok r, pr, dr, orr⟩) →
      f ∈ vulnsOf (scan_vulnerabilities u "medium" ⟨.ok r, pr, dr, orr⟩) ∧
      f ∈ vulnsOf (scan_vulnerabilities u "deep" ⟨.ok r, pr, dr, orr⟩)) ∧
    (∀ f : Finding, f ∈ vulnsOf (scan_vulnerabilities u "medium" ⟨.ok r, pr, dr, orr⟩) →
      f ∈ vulnsOf (scan_vulnerabilities u "deep" ⟨.ok r, pr, dr, orr⟩)) := by
  have hlm := vulnScanSt_light_medium (⟨.ok r, pr, dr, orr⟩ : VulnEnv) r
  have hmd := vulnScanSt_medium_deep (⟨.ok r, pr, dr, orr⟩ : VulnEnv) r
  constructor
  · intro f hf
    rw [vulnsOf_ok] at hf
    rw [vulnsOf_ok, vulnsOf_ok]
    exact ⟨hlm.subset hf, (hlm.trans hmd).subset hf⟩
  · intro f hf
    rw [vulnsOf_ok] at hf
    rw [vulnsOf_ok]
    exact hmd.subset hf

/-- C4 witness response (all light-tier headers absent). -/
def c4resp : HttpResponse := ⟨[], "", 200⟩

/-- C4 witness finding: the missing X-Frame-Options finding of the light
tier. -/
def c4finding : Finding :=
  Finding.mk "Missing Security Header" "medium" "Clickjacking protection missing"
    (some "x-frame-options") none none none none

/-- Witness for C4: a concrete light-tier finding is also produced at
depths medium and deep. -/
theorem vuln_depth_superset_witness :
    c4finding ∈ vulnsOf (scan_vulnerabilities "example.com" "medium"
      ⟨.ok c4resp, fun _ => none, none, none⟩) ∧
    c4finding ∈ vulnsOf (scan_vulnerabilities "example.com" "deep"
      ⟨.ok c4resp, fun _ => none, none, none⟩) :=
  (vuln_depth_superset "example.com" c4resp (fun _ => none) none none).1 c4finding (by decide)

/-- A harmless supplementary response: no headers, empty body, status 404
(not 200, no directory-listing marker, no Allow header). -/
def notFoundResponse : HttpResponse := ⟨[], "", 404⟩

/-- C5 helper: replacing one failed sensitive-path request by a harmless
404 response changes nothing in the probe's output. -/
theorem pathSwallow (u d : String) (r : HttpResponse) (pr : String → Option HttpResponse)
    (dr orr : Option HttpResponse) (p : String) (hp : pr p = none) :
    scan_vulnerabilities u d ⟨.ok r, pr, dr, orr⟩ =
      scan_vulnerabilities u d
        ⟨.ok r, fun q => if q = p then some notFoundResponse else pr q, dr, orr⟩ := by
  have hstep : ∀ (st : VulnSt) (x : String),
      pathStep ⟨.ok r, pr, dr, orr⟩ st x =
      pathStep ⟨.ok r, fun q => if q = p then some notFoundResponse else pr q, dr, orr⟩ st x := by
    intro st x
    simp only [pathStep]
    by_cases hx : x = p
    · subst hx
      rw [hp]
      simp [notFoundResponse]
    · simp [hx]
  have hfold : ∀ st : VulnSt,
      List.foldl (pathStep ⟨.ok r, pr, dr, orr⟩) st vulnerable_paths =
      List.foldl (pathStep ⟨.ok r, fun q => if q = p then some notFoundResponse else pr q,
        dr, orr⟩) st vulnerable_paths := by
    intro st
    exact List.foldl_ext _ _ st fun a b _ => hstep a b
  have hst : vulnScanSt d ⟨.ok r, pr, dr, orr⟩ r =
      vulnScanSt d ⟨.ok r, fun q => if q = p then some notFoundResponse else pr q, dr, orr⟩ r := by
    simp only [vulnScanSt]
    rw [hfold]
    rfl
  simp only [scan_vulnerabilities]
  rw [hst]

/-- C5: if the baseline GET fails the probe returns exactly the payload
`{error, vulnerabilities: [], score: 0.0}`; and at any depth, failure of
an individual supplementary request (sensitive-path GET, directory-listing
GET, OPTIONS) is swallowed on its own — the probe returns the same result
as if that request had returned a harmless 404, and the outcome keeps the
success shape. -/
theorem vuln_failure_contract :
    (∀ (u d e : String) (pr : String → Option HttpResponse) (dr orr : Option HttpResponse),
      scan_vulnerabilities u d ⟨.error e, pr, dr, orr⟩ =
        .connectError ("Could not connect to " ++ withScheme u ++ ": " ++ e) [] 0.0) ∧
    (∀ (u d : String) (r : HttpResponse) (pr : String → Option HttpResponse)
        (dr orr : Option HttpResponse) (p : String), pr p = none →
      scan_vulnerabilities u d ⟨.ok r, pr, dr, orr⟩ =
        scan_vulnerabilities u d
          ⟨.ok r, fun q => if q = p then some notFoundResponse else pr q, dr, orr⟩ ∧
      isVulnSuccess (scan_vulnerabilities u d ⟨.ok r, pr, dr, orr⟩) = true) ∧
    (∀ (u d : String) (r : HttpResponse) (pr : String → Option HttpResponse)
        (orr : Option HttpResponse),
      scan_vulnerabilities u d ⟨.ok r, pr, none, orr⟩ =
        scan_vulnerabilities u d ⟨.ok r, pr, some notFoundResponse, orr⟩) ∧
    (∀ (u d : String) (r : HttpResponse) (pr : String → Option HttpResponse)
        (dr : Option HttpResponse),
      scan_vulnerabilities u d ⟨.ok r, pr, dr, none⟩ =
        scan_vulnerabilities u d ⟨.ok r, pr, dr, some notFoundResponse⟩) := by
  refine ⟨fun _ _ _ _ _ _ => rfl, ?_, fun _ _ _ _ _ => rfl, fun _ _ _ _ _ => rfl⟩
  intro u d r pr dr orr p hp
  exact ⟨pathSwallow u d r pr dr orr p hp, rfl⟩

/-- C5 witness response. -/
def c5resp : HttpResponse := ⟨[("Server", "nginx")], "", 200⟩

/-- Witness for C5 at concrete inputs: baseline failure yields the exact
degraded payload, and one failed sensitive-path request (`/admin`) is
interchangeable with a harmless 404. -/
theorem vuln_failure_contract_witness :
    (scan_vulnerabilities "example.com" "light"
        ⟨.error "timeout", fun _ => none, none, none⟩ =
      .connectError ("Could not connect to " ++ withScheme "example.com" ++ ": " ++ "timeout")
        [] 0.0) ∧
    (scan_vulnerabilities "example.com" "medium" ⟨.ok c5resp, fun _ => none, none, none⟩ =
      scan_vulnerabilities "example.com" "medium"
        ⟨.ok c5resp, fun q => if q = "/admin" then some notFoundResponse else none,
         none, none⟩ ∧
     isVulnSuccess (scan_vulnerabilities "example.com" "medium"
       ⟨.ok c5resp, fun _ => none, none, none⟩) = true) := by
  exact ⟨vuln_failure_contract.1 "example.com" "light" "timeout" (fun _ => none) none none,
    vuln_failure_contract.2.1 "example.com" "medium" c5resp (fun _ => none) none none
      "/admin" rfl⟩

/-- C10: the probe never validates `scan_depth` — for any depth string
other than exactly `medium` or `deep` it performs exactly the light-tier
baseline checks and returns a well-formed success result echoing that
depth. -/
theorem vuln_depth_unvalidated (u d : String) (r : HttpResponse)
    (pr : String → Option HttpResponse) (dr orr : Option HttpResponse)
    (hm : d ≠ "medium") (hd : d ≠ "deep") :
    isVulnSuccess (scan_vulnerabilities u d ⟨.ok r, pr, dr, orr⟩) = true ∧
    vdepthOf (scan_vulnerabilities u d ⟨.ok r, pr, dr, orr⟩) = d ∧
    vulnsOf (scan_vulnerabilities u d ⟨.ok r, pr, dr, orr⟩) =
      vulnsOf (scan_vulnerabilities u "light" ⟨.ok r, pr, dr, orr⟩) ∧
    vscoreOf (scan_vulnerabilities u d ⟨.ok r, pr, dr, orr⟩) =
      vscoreOf (scan_vulnerabilities u "light" ⟨.ok r, pr, dr, orr⟩) := by
  refine ⟨rfl, rfl, ?_, ?_⟩
  · rw [vulnsOf_ok, vulnsOf_ok, vulnScanSt_shallow d _ r hm hd]
  · rw [vscoreOf_ok, vscoreOf_ok, vulnScanSt_shallow d _ r hm hd]

/-! ## Claim theorems: DNS probe -/

/-- The per-type record list as the loop records it. -/
def resolveEntry (resolve : String → DNSOutcome) (rt : String) : List String :=
  match resolve rt with
  | .answers l => l
  | .noAnswer => []
  | .failure => ["Error resolving"]

theorem resolveStep_eq (resolve : String → DNSOutcome)
    (acc : List (String × List String)) (rt : String) :
    resolveStep resolve acc rt = acc ++ [(rt, resolveEntry resolve rt)] := by
  unfold resolveStep resolveEntry
  cases resolve rt <;> rfl

theorem foldl_resolveStep (resolve : String → DNSOutcome) :
    ∀ (l : List String) (acc : List (String × List String)),
      l.foldl (resolveStep resolve) acc =
        acc ++ l.map fun rt => (rt, resolveEntry resolve rt) := by
  intro l
  induction l with
  | nil => simp
  | cons x xs ih =>
    intro acc
    simp [resolveStep_eq, ih]

/-- C8: the DNS probe reports `spf_configured` true iff some TXT value
starts with `"v=spf1`, and `dmarc_configured` true iff some TXT value
starts with `"v=DMARC1` (checked on the domain's own TXT records); when a
flag is false the corresponding missing-record issue string is in
`security_issues`. -/
theorem dns_spf_dmarc (domain : String) (resolve : String → DNSOutcome)
    (txts : List String) (ht : resolve "TXT" = .answers txts) :
    ((analyze_dns domain resolve).spf_configured = true ↔
      ∃ r ∈ txts, pyStartsWith r "\"v=spf1" = true) ∧
    ((analyze_dns domain resolve).dmarc_configured = true ↔
      ∃ r ∈ txts, pyStartsWith r "\"v=DMARC1" = true) ∧
    ((analyze_dns domain resolve).spf_configured = false →
      "No SPF record found - email spoofing protection missing" ∈
        (analyze_dns domain resolve).security_issues) ∧
    ((analyze_dns domain resolve).dmarc_configured = false →
      "No DMARC record found - email authentication policy missing" ∈
        (analyze_dns domain resolve).security_issues) := by
  have htxt : resolveEntry resolve "TXT" = txts := by
    unfold resolveEntry
    rw [ht]
  have hfindT : (record_types.foldl (resolveStep resolve) []).find?
      (fun p => p.1 == "TXT") = some ("TXT", txts) := by
    rw [foldl_resolveStep]
    simp [record_types, List.find?, htxt,
      show (("A" : String) == "TXT") = false from rfl,
      show (("AAAA" : String) == "TXT") = false from rfl,
      show (("MX" : String) == "TXT") = false from rfl,
      show (("TXT" : String) == "TXT") = true from rfl]
  have hfindA : (record_types.foldl (resolveStep resolve) []).find?
      (fun p => p.1 == "A") = some ("A", resolveEntry resolve "A") := by
    rw [foldl_resolveStep]
    simp [record_types, List.find?, show (("A" : String) == "A") = true from rfl]
  have hspf : (analyze_dns domain resolve).spf_configured =
      txts.any fun r => pyStartsWith r "\"v=spf1" := by
    simp only [analyze_dns]
    rw [hfindT]
    simp
  have hdmarc : (analyze_dns domain resolve).dmarc_configured =
      txts.any fun r => pyStartsWith r "\"v=DMARC1" := by
    simp only [analyze_dns]
    rw [hfindT]
    simp
  have hiss : (analyze_dns domain resolve).security_issues =
      (if (txts.any fun r => pyStartsWith r "\"v=spf1") = true then []
       else ["No SPF record found - email spoofing protection missing"]) ++
      (if (txts.any fun r => pyStartsWith r "\"v=DMARC1") = true then []
       else ["No DMARC record found - email authentication policy missing"]) ++
      (if (resolveEntry resolve "A").length > 5 then
        ["Many A records found - potential load balancing or CDN setup"] else []) := by
    simp only [analyze_dns]
    rw [hfindT, hfindA]
    simp
  refine ⟨?_, ?_, ?_, ?_⟩
  · rw [hspf, List.any_eq_true]
  · rw [hdmarc, List.any_eq_true]
  · intro h
    rw [hspf] at h
    rw [hiss, h]
    simp
  · intro h
    rw [hdmarc] at h
    rw [hiss, h]
    simp

/-- C8 witness TXT records: an SPF record, no DMARC record. -/
def c8txts : List String := ["\"v=spf1 include:_spf.example.com ~all\""]

/-- C8 witness resolver. -/
def c8resolve : String → DNSOutcome := fun rt =>
  if rt = "TXT" then .answers c8txts else .noAnswer

/-- Witness for C8 at a concrete resolver: SPF present, DMARC absent. -/
theorem dns_spf_dmarc_witness :
    ((analyze_dns "example.com" c8resolve).spf_configured = true ↔
      ∃ r ∈ c8txts, pyStartsWith r "\"v=spf1" = true) ∧
    ((analyze_dns "example.com" c8resolve).dmarc_configured = true ↔
      ∃ r ∈ c8txts, pyStartsWith r "\"v=DMARC1" = true) ∧
    ((analyze_dns "example.com" c8resolve).spf_configured = false →
      "No SPF record found - email spoofing protection missing" ∈
        (analyze_dns "example.com" c8resolve).security_issues) ∧
    ((analyze_dns "example.com" c8resolve).dmarc_configured = false →
      "No DMARC record found - email authentication policy missing" ∈
        (analyze_dns "example.com" c8resolve).security_issues) :=
  dns_spf_dmarc "example.com" c8resolve c8txts rfl

/-! ## Claim theorems: HTTP header probe -/

/-- Presence of a catalog header in the response as the probe decides it:
case-insensitive lookup finds the header *and* its value is non-empty
(Python truthiness of `if header_value:`, mcp/main.py line 318). -/
def headerPresent (response : HttpResponse) (name : String) : Bool :=
  truthyValue (lookupHeaderCI response.headers name)

/-- The amended claim's `present_count`: the number of catalog headers
found by case-insensitive lookup with a non-empty value. -/
def claimPresentCount (response : HttpResponse) : Nat :=
  (security_headers_check.filter fun p => headerPresent response p.1).length

/-- The claim's adjustment: `+1` if all high-importance catalog headers
are present, `-2` if none is, `0` otherwise. -/
def claimAdjustment (response : HttpResponse) : ℚ :=
  let high := security_headers_check.filter fun p => p.2.importance == "high"
  if high.all (fun p => headerPresent response p.1) then 1
  else if high.all (fun p => !(headerPresent response p.1)) then -2
  else 0

/-- The claim's published-score formula, exactly as worded:
`clamp((present_count / 7) * 10 + adjustment, 0, 10)`. -/
def claimHeaderScore (present_count : Nat) (adjustment : ℚ) : ℚ :=
  max 0 (min 10 ((present_count : ℚ) / 7 * 10 + adjustment))

/-- The probe's published score equals the claim's clamp formula *rounded
to one decimal place* (shared by the C1 theorem and counterexample). -/
theorem headerScore_char (url : String) (r : HttpResponse) :
    hscoreOf (analyze_security_headers url (.ok r)) =
      round1 (claimHeaderScore (claimPresentCount r) (claimAdjustment r)) := by
  cases hb1 : truthyValue (lookupHeaderCI r.headers "strict-transport-security") <;>
  cases hb2 : truthyValue (lookupHeaderCI r.headers "content-security-policy") <;>
  cases hb3 : truthyValue (lookupHeaderCI r.headers "x-frame-options") <;>
  cases hb4 : truthyValue (lookupHeaderCI r.headers "x-content-type-options") <;>
  cases hb5 : truthyValue (lookupHeaderCI r.headers "x-xss-protection") <;>
  cases hb6 : truthyValue (lookupHeaderCI r.headers "referrer-policy") <;>
  cases hb7 : truthyValue (lookupHeaderCI r.headers "permissions-policy") <;>
  simp [analyze_security_headers, security_headers_check, classifyStep, hscoreOf,
    claimPresentCount, claimAdjustment, claimHeaderScore, headerPresent,
    hb1, hb2, hb3, hb4, hb5, hb6, hb7, max_def, min_def] <;>
  norm_num

/-- C1 counterexample response: three medium/low headers present (with
non-empty, hence truthy, values), no high-importance header present. -/
def c1resp : HttpResponse :=
  ⟨[("X-Frame-Options", "DENY"), ("X-Content-Type-Options", "nosniff"),
    ("Referrer-Policy", "no-referrer")], "", 200⟩

/-- C1 counterexample: at a response with 3 of 7 catalog headers present
and no high-importance header, the claim's formula gives 16/7 but the
probe publishes 2.3 — the published score is the clamp value rounded to
one decimal, not the clamp value itself. -/
theorem header_score_not_exact :
    claimPresentCount c1resp = 3 ∧
    claimAdjustment c1resp = -2 ∧
    hscoreOf (analyze_security_headers "example.com" (.ok c1resp)) = 23 / 10 ∧
    claimHeaderScore (claimPresentCount c1resp) (claimAdjustment c1resp) = 16 / 7 ∧
    hscoreOf (analyze_security_headers "example.com" (.ok c1resp)) ≠
      claimHeaderScore (claimPresentCount c1resp) (claimAdjustment c1resp) := by
  have hpc : claimPresentCount c1resp = 3 := by decide
  have hallp : ((security_headers_check.filter fun p => p.2.importance == "high").all
      fun p => headerPresent c1resp p.1) = false := by decide
  have halln : ((security_headers_check.filter fun p => p.2.importance == "high").all
      fun p => !(headerPresent c1resp p.1)) = true := by decide
  have hadj : claimAdjustment c1resp = -2 := by
    unfold claimAdjustment
    simp only [hallp, halln]
    norm_num
  have hclaim : claimHeaderScore 3 (-2) = 16 / 7 := by
    unfold claimHeaderScore
    rw [show min (10 : ℚ) (((3 : Nat) : ℚ) / 7 * 10 + -2) = 16 / 7 from by
      rw [min_def]
      norm_num,
      show max (0 : ℚ) (16 / 7) = 16 / 7 from by
      rw [max_def]
      norm_num]
  have hsc : hscoreOf (analyze_security_headers "example.com" (.ok c1resp)) = 23 / 10 := by
    rw [headerScore_char, hpc, hadj, hclaim]
    have := round1_eval (16 / 7) 23 (by norm_num) (by norm_num)
    rw [this]
    norm_num
  refine ⟨hpc, hadj, hsc, by rw [hpc, hadj]; exact hclaim, ?_⟩
  rw [hsc, hpc, hadj, hclaim]
  norm_num

/-- C1 (amended): for every response, the Header Probe's published score
equals `clamp((present_count / 7) * 10 + adjustment, 0, 10)` *rounded to
one decimal place*, where `present_count` counts the catalog headers found
by case-insensitive lookup with a non-empty value (Python truthiness of
`if header_value:`) and `adjustment` is `+1` when all high-importance
headers are so present, `-2` when none is, else `0`. -/
theorem header_score_rounded (url : String) (r : HttpResponse) :
    hscoreOf (analyze_security_headers url (.ok r)) =
      round1 (claimHeaderScore (claimPresentCount r) (claimAdjustment r)) :=
  headerScore_char url r

/-! ## Claim theorems: target normalization -/

theorem charShift : ∀ n ∈ Finset.Icc 65 90, (Char.ofNat (n + 32)).toNat = n + 32 := by
  decide

theorem pyLowerChar_not_upper (c : Char) :
    ¬(65 ≤ (pyLowerChar c).toNat ∧ (pyLowerChar c).toNat ≤ 90) := by
  unfold pyLowerChar
  split
  · next h =>
    have hs := charShift c.toNat (Finset.mem_Icc.mpr h)
    rw [hs]
    omega
  · next h => exact h

theorem pyLowerChar_idem (c : Char) :
    pyLowerChar (pyLowerChar c) = pyLowerChar c := by
  rw [show pyLowerChar (pyLowerChar c) =
    (if 65 ≤ (pyLowerChar c).toNat ∧ (pyLowerChar c).toNat ≤ 90 then
      Char.ofNat ((pyLowerChar c).toNat + 32) else pyLowerChar c) from rfl,
    if_neg (pyLowerChar_not_upper c)]

theorem strReplaceAux_subset :
    ∀ (fuel : Nat) (s pat rep : List Char) (c : Char),
      c ∈ strReplaceAux fuel s pat rep → c ∈ s ∨ c ∈ rep := by
  intro fuel
  induction fuel with
  | zero =>
    intro s pat rep c h
    cases s with
    | nil => simp [strReplaceAux] at h
    | cons x xs =>
      simp only [strReplaceAux] at h
      exact Or.inl h
  | succ f ih =>
    intro s pat rep c h
    cases s with
    | nil => simp [strReplaceAux] at h
    | cons x xs =>
      simp only [strReplaceAux] at h
      by_cases hc : pat ≠ [] ∧ pat.isPrefixOf (x :: xs)
      · rw [if_pos hc] at h
        rcases List.mem_append.mp h with hr | hrec
        · exact Or.inr hr
        · rcases ih _ _ _ _ hrec with hs | hr
          · exact Or.inl (List.mem_of_mem_drop hs)
          · exact Or.inr hr
      · rw [if_neg hc] at h
        rcases List.mem_cons.mp h with rfl | hrec
        · exact Or.inl (List.mem_cons_self _ _)
        · rcases ih _ _ _ _ hrec with hs | hr
          · exact Or.inl (List.mem_cons_of_mem _ hs)
          · exact Or.inr hr

/-- Every character surviving the backend normalization is fixed by the
lower-casing map (scheme deletion introduces no characters). -/
theorem backendClean_chars_lower (s : String) :
    ∀ c ∈ (backendClean s).data, pyLowerChar c = c := by
  intro c hc
  unfold backendClean pyReplace at hc
  rcases strReplaceAux_subset _ _ _ _ _ hc with h1 | h1
  · rcases strReplaceAux_subset _ _ _ _ _ h1 with h2 | h2
    · unfold pyLower at h2
      rcases List.mem_map.mp h2 with ⟨c', _, rfl⟩
      exact pyLowerChar_idem c'
    · simp at h2
  · simp at h1

theorem containsSub_single {l : List Char} {c : Char}
    (h : containsSub l [c] = false) : c ∉ l := by
  induction l with
  | nil => simp
  | cons x xs ih =>
    simp only [containsSub, List.isPrefixOf, Bool.or_eq_false_iff] at h
    intro hmem
    rcases List.mem_cons.mp hmem with rfl | hxs
    · simp at h
    · exact ih h.2 hxs

/-- C6 counterexample: the backend normalizer does not truncate at `/`,
so the target handed to the vulnerability and header probes — and the
request URL built from it — retains the path. -/
theorem backendClean_keeps_path :
    backendClean "http://Example.com/admin" = "example.com/admin" ∧
    '/' ∈ (backendClean "http://Example.com/admin").data ∧
    '/' ∈ (withScheme (backendClean "http://Example.com/admin")).data := by
  refine ⟨by decide, by decide, by decide⟩

/-- C6 (amended): every normalized target is lower-cased (a fixed point of
the lower-casing map); the hostname-based probes (TLS, port, DNS) consume
the `clean_url` form, which additionally truncates at the first `/` and so
contains no `/` (hence no scheme and no path); the vulnerability and
header probes consume the backend-normalized string, which is `clean_url`
minus that truncation and may retain a path. -/
theorem normalizer_contract (s : String) :
    pyLower (backendClean s) = backendClean s ∧
    (∀ c ∈ (clean_url s).data, c ≠ '/') ∧
    pyLower (clean_url s) = clean_url s ∧
    clean_url s =
      (if pyContains (backendClean s) "/" then
        (⟨(backendClean s).data.takeWhile fun c => c ≠ '/'⟩ : String)
      else backendClean s) := by
  have hlowfix : ∀ (t : String), (∀ c ∈ t.data, pyLowerChar c = c) → pyLower t = t := by
    intro t ht
    show (⟨t.data.map pyLowerChar⟩ : String) = t
    have : t.data.map pyLowerChar = t.data :=
      (List.map_congr_left (by simpa using ht)).trans (List.map_id _)
    rw [this]
  have hcu : clean_url s =
      (if pyContains (backendClean s) "/" then
        (⟨(backendClean s).data.takeWhile fun c => c ≠ '/'⟩ : String)
      else backendClean s) := rfl
  have hsub : ∀ c ∈ (clean_url s).data, c ∈ (backendClean s).data := by
    intro c hc
    rw [hcu] at hc
    by_cases hin : pyContains (backendClean s) "/"
    · rw [if_pos hin] at hc
      exact (List.takeWhile_sublist _).subset hc
    · rw [if_neg hin] at hc
      exact hc
  refine ⟨hlowfix _ (backendClean_chars_lower s), ?_, ?_, hcu⟩
  · intro c hc
    rw [hcu] at hc
    by_cases hin : pyContains (backendClean s) "/"
    · rw [if_pos hin] at hc
      have := List.mem_takeWhile_imp hc
      simpa using this
    · rw [if_neg hin] at hc
      have hns : ('/' : Char) ∉ (backendClean s).data := by
        apply containsSub_single
        simpa [pyContains] using hin
      intro hq
      rw [hq] at hc
      exact hns hc
  · exact hlowfix _ fun c hc => backendClean_chars_lower s c (hsub c hc)

/-! ## Claim theorems: TLS probe -/

/-- C7 evidence certificate: carries two Subject Alternative Names. -/
def c7cert : PeerCert :=
  ⟨[("CN", "example.com")], [("CN", "Example CA")], 0, 1000,
   [("DNS", "example.com"), ("DNS", "www.example.com")]⟩

/-- C7 evidence environment: a successful handshake returning `c7cert`. -/
def c7env : TLSEnv := ⟨0, .ok c7cert⟩

/-- C7 (code bug evidence): on every successful handshake the probe's
`subject_alt_names` is `[]`, even when the certificate carries SAN
entries — the SAN loop iterates `cert.get('extensions', [])`, and the
`getpeercert()` dict has no `extensions` key (its SANs are under
`subjectAltName`), so the published list never reflects the
certificate. -/
theorem tls_san_always_empty :
    c7cert.subjectAltName ≠ [] ∧
    sanOf (check_ssl_certificate "example.com" true c7env) = [] ∧
    (∀ (url : String) (check_chain : Bool) (now : Int) (cert : PeerCert),
      sanOf (check_ssl_certificate url check_chain ⟨now, .ok cert⟩) = []) :=
  ⟨by decide, rfl, fun _ _ _ _ => rfl⟩

/-! ## Claim theorems: report aggregator -/

/-- C3 counterexample environment: constant probe payloads. -/
def c3env : BackendEnv :=
  ⟨fun _ => "ssl-payload", fun _ _ => "vuln-payload", fun _ => "headers-payload",
   fun _ => "summary"⟩

/-- C3 counterexample: the composed report of a scan has exactly the three
keys `ssl`, `vulnerabilities` and `security_headers` — no entry keyed by a
port or DNS probe kind exists, refuting the five-probe claim. -/
theorem scan_website_three_keys :
    (scan_website "example.com" c3env).results.map Prod.fst =
      ["ssl", "vulnerabilities", "security_headers"] ∧
    (scan_website "example.com" c3env).results.length = 3 := by
  constructor <;> rfl

/-- C3 (amended): for every raw URL and probe environment the aggregator
invokes exactly three probes — TLS, vulnerability (at its default depth
`light`) and header — each on the one normalized target, and returns their
payloads keyed `ssl`, `vulnerabilities`, `security_headers`. -/
theorem scan_website_aggregates (rawUrl : String) (env : BackendEnv) :
    (scan_website rawUrl env).results =
      [("ssl", env.check_ssl (backendClean rawUrl)),
       ("vulnerabilities", env.scan_vulns (backendClean rawUrl) "light"),
       ("security_headers", env.headers_tool (backendClean rawUrl))] := rfl

/-! ## Claim theorems: port probe -/

theorem foldl_portStep (isOpen : Nat → Bool) :
    ∀ (l : List Nat) (acc : List Nat × List Nat),
      l.foldl (portStep isOpen) acc =
        (acc.1 ++ l.filter isOpen, acc.2 ++ l.filter fun p => !(isOpen p)) := by
  intro l
  induction l with
  | nil => simp
  | cons x xs ih =>
    intro acc
    simp only [List.foldl_cons]
    rw [ih]
    by_cases hx : isOpen x <;> simp [portStep, hx, List.filter_cons]

/-- C9: the port probe partitions the scanned ports into `open_ports` and
`closed_ports` preserving input order, and `security_concerns` contains
the SFTP recommendation iff 21 is open, the Telnet flag iff 23 is open,
and the no-HTTPS flag iff 80 is open and 443 is not; with 21 and 23 closed
and 80 and 443 open the list is empty. -/
theorem ports_contract (url : String) (ports : List Nat) (isOpen : Nat → Bool)
    (hne : ports ≠ []) :
    (scan_ports url (some ports) isOpen).open_ports = ports.filter isOpen ∧
    (scan_ports url (some ports) isOpen).closed_ports =
      ports.filter (fun p => !(isOpen p)) ∧
    ("FTP port 21 is open - consider using SFTP instead" ∈
        (scan_ports url (some ports) isOpen).security_concerns ↔
      21 ∈ (scan_ports url (some ports) isOpen).open_ports) ∧
    ("Telnet port 23 is open - unencrypted protocol" ∈
        (scan_ports url (some ports) isOpen).security_concerns ↔
      23 ∈ (scan_ports url (some ports) isOpen).open_ports) ∧
    ("Only HTTP (port 80) available - no HTTPS" ∈
        (scan_ports url (some ports) isOpen).security_concerns ↔
      (80 ∈ (scan_ports url (some ports) isOpen).open_ports ∧
       443 ∉ (scan_ports url (some ports) isOpen).open_ports)) ∧
    (21 ∉ (scan_ports url (some ports) isOpen).open_ports →
     23 ∉ (scan_ports url (some ports) isOpen).open_ports →
     80 ∈ (scan_ports url (some ports) isOpen).open_ports →
     443 ∈ (scan_ports url (some ports) isOpen).open_ports →
     (scan_ports url (some ports) isOpen).security_concerns = []) := by
  have hE : ports.isEmpty = false := by
    simp [List.isEmpty_iff, hne]
  have hrec : scan_ports url (some ports) isOpen =
      { domain := clean_url url,
        open_ports := ports.filter isOpen,
        closed_ports := ports.filter fun p => !(isOpen p),
        total_scanned := ports.length,
        security_concerns :=
          (if (ports.filter isOpen).contains 21 then
            ["FTP port 21 is open - consider using SFTP instead"] else []) ++
          (if (ports.filter isOpen).contains 23 then
            ["Telnet port 23 is open - unencrypted protocol"] else []) ++
          (if (ports.filter isOpen).contains 80 && !((ports.filter isOpen).contains 443) then
            ["Only HTTP (port 80) available - no HTTPS"] else []) } := by
    simp only [scan_ports, hE, Bool.false_eq_true, if_false]
    rw [foldl_portStep]
    simp
  rw [hrec]
  refine ⟨rfl, rfl, ?_, ?_, ?_, ?_⟩
  · by_cases h21 : (ports.filter isOpen).contains 21 <;>
      by_cases h23 : (ports.filter isOpen).contains 23 <;>
      by_cases h80 : ((ports.filter isOpen).contains 80 &&
        !((ports.filter isOpen).contains 443)) = true <;>
      simp_all
  · by_cases h21 : (ports.filter isOpen).contains 21 <;>
      by_cases h23 : (ports.filter isOpen).contains 23 <;>
      by_cases h80 : ((ports.filter isOpen).contains 80 &&
        !((ports.filter isOpen).contains 443)) = true <;>
      simp_all
  · by_cases h21 : (ports.filter isOpen).contains 21 <;>
      by_cases h23 : (ports.filter isOpen).contains 23 <;>
      by_cases h80 : ((ports.filter isOpen).contains 80 &&
        !((ports.filter isOpen).contains 443)) = true <;>
      simp_all <;> tauto
  · intro n21 n23 m80 m443
    have c21 : (ports.filter isOpen).contains 21 = false := by simpa using n21
    have c23 : (ports.filter isOpen).contains 23 = false := by simpa using n23
    have c443 : (ports.filter isOpen).contains 443 = true := by simpa using m443
    simp [c21, c23, c443]
    simp at c21 c23 c443
    tauto

/-- C9 witness connection outcomes: 80 and 443 open, the rest closed. -/
def c9isOpen : Nat → Bool := fun p => p = 80 || p = 443

/-- Witness for C9: with {21 closed, 23 closed, 80 open, 443 open} the
security-concerns list is empty. -/
theorem ports_contract_witness :
    (scan_ports "example.com" (some [21, 23, 80, 443]) c9isOpen).security_concerns = [] := by
  have h := ports_contract "example.com" [21, 23, 80, 443] c9isOpen (by decide)
  exact h.2.2.2.2.2 (by decide) (by decide) (by decide) (by decide)

/-- C10 witness response. -/
def c10resp : HttpResponse := ⟨[], "", 200⟩

/-- Witness for C10 at the unrecognized depth string `extreme`. -/
theorem vuln_depth_unvalidated_witness :
    isVulnSuccess (scan_vulnerabilities "example.com" "extreme"
      ⟨.ok c10resp, fun _ => none, none, none⟩) = true ∧
    vdepthOf (scan_vulnerabilities "example.com" "extreme"
      ⟨.ok c10resp, fun _ => none, none, none⟩) = "extreme" ∧
    vulnsOf (scan_vulnerabilities "example.com" "extreme"
        ⟨.ok c10resp, fun _ => none, none, none⟩) =
      vulnsOf (scan_vulnerabilities "example.com" "light"
        ⟨.ok c10resp, fun _ => none, none, none⟩) ∧
    vscoreOf (scan_vulnerabilities "example.com" "extreme"
        ⟨.ok c10resp, fun _ => none, none, none⟩) =
      vscoreOf (scan_vulnerabilities "example.com" "light"
        ⟨.ok c10resp, fun _ => none, none, none⟩) :=
  vuln_depth_unvalidated "example.com" "extreme" c10resp (fun _ => none) none none
    (by decide) (by decide)

end SecScan
